import Mathlib

/-!
Verification development for the gitlab-cli pipeline explorer
(`gitlab_cli/cli.py`).  The two algorithmic subsystems — the pipeline
cache layer (`get_pipeline_details` / `get_pipeline_from_cache` /
`save_pipeline_to_cache`) and the failure-trace extraction engine
(`extract_failures_from_trace` and the five extractors) — are embedded
shallowly: Python strings become `String`/`List Char`, the SQLite table
becomes an association list of rows, JSON (de)serialization becomes an
explicit `Blob` type, and the remote GitLab API becomes an explicit
`Except`-valued collaborator function.
-/

/-! ## Basic character and string helpers (Python `str` semantics, ASCII) -/

/-- Python whitespace class `\s` for `str.strip`, regex `\s` (ASCII range). -/
def isPyWs (c : Char) : Bool :=
  c = ' ' || c = '\t' || c = '\n' || c = '\r' || c = '\x0b' || c = '\x0c'

/-- Python `str.lower` on one ASCII character. -/
def pyLowerChar (c : Char) : Char :=
  if 'A' ≤ c ∧ c ≤ 'Z' then Char.ofNat (c.toNat + 32) else c

/-- Python `str.lower` (ASCII). -/
def pyLower (s : List Char) : List Char := s.map pyLowerChar

/-- Python `str.strip()`: drop leading and trailing whitespace. -/
def pyStrip (s : List Char) : List Char :=
  ((s.dropWhile isPyWs).reverse.dropWhile isPyWs).reverse

/-- Python `str.split('\n')`: split on every newline; `"" ↦ [""]`. -/
def splitNl : List Char → List (List Char)
  | [] => [[]]
  | c :: rest =>
    if c = '\n' then [] :: splitNl rest
    else
      match splitNl rest with
      | w :: ws => (c :: w) :: ws
      | [] => [[c]]

/-- Python `'\n'.join`. -/
def joinNl : List (List Char) → List Char
  | [] => []
  | [w] => w
  | w :: ws => w ++ '\n' :: joinNl ws

/-- Decidable prefix test on character lists. -/
def isPre : List Char → List Char → Bool
  | [], _ => true
  | _ :: _, [] => false
  | p :: ps, c :: cs => p = c && isPre ps cs

/-- Python substring containment `needle in hay`. -/
def strIn (needle hay : List Char) : Bool :=
  match hay with
  | [] => isPre needle []
  | _ :: rest => isPre needle hay || strIn needle rest

/-- Render a natural number in decimal (for the summary strings). -/
def natStr (n : Nat) : String := Nat.repr n

/-! ## Data model

`PipelineData` is the dictionary `{'pipeline': ..., 'jobs': [...]}`
built by `get_pipeline_details`; only the attributes the core reads are
modelled. -/

/-- Attributes of one job, as consumed by `get_job_status_summary`. -/
structure Job where
  id : Nat
  name : String
  status : String
  stage : String
  duration : Option ℚ
  started_at : Option String
  finished_at : Option String
deriving DecidableEq, Repr

/-- Pipeline attributes read by the core (`pipeline.attributes`). -/
structure PipelineAttrs where
  id : Nat
  status : String
  created_at : String
  updated_at : String
  duration : Option ℚ
deriving DecidableEq, Repr

/-- The dict `{'pipeline': pipeline.attributes, 'jobs': [job.attributes]}`. -/
structure PipelineData where
  pipeline : PipelineAttrs
  jobs : List Job
deriving DecidableEq, Repr

/-! ## Cache store

The SQLite table `pipelines(pipeline_id PRIMARY KEY, created_at, data)`
is an association list of rows; the `data` column holds either a
well-formed JSON serialization of a snapshot or bytes that
`json.loads` rejects. -/

/-- Contents of the `data` column: `json d` is `json.dumps(d)`, and
`corrupt raw` stands for any blob on which `json.loads` raises. -/
inductive Blob where
  | json (d : PipelineData)
  | corrupt (raw : String)
deriving DecidableEq, Repr

/-- Deserialization (`json.loads`): total, `none` when the blob is corrupt. -/
def decodeBlob : Blob → Option PipelineData
  | .json d => some d
  | .corrupt _ => none

/-- One row of the `pipelines` table. -/
structure CacheRow where
  pipeline_id : Nat
  created_at : String
  data : Blob
deriving DecidableEq, Repr

/-- The `pipelines` table. -/
abbrev CacheDB := List CacheRow

/-- The `COMPLETE_STATUSES` set from `cli.py` line 18. -/
def COMPLETE_STATUSES : List String := ["success", "failed", "canceled", "skipped"]

/-- Python `str.lower` on a `String`. -/
def lowerStr (s : String) : String := ⟨pyLower s.data⟩

/-- Embeds `GitLabExplorer.get_pipeline_from_cache`: point lookup by
primary key, deserialize on hit; a row whose blob fails to deserialize
is logged and reported as a miss (`None`). -/
def get_pipeline_from_cache (db : CacheDB) (pipeline_id : Nat) : Option PipelineData :=
  match db.find? (fun r => r.pipeline_id == pipeline_id) with
  | some row => decodeBlob row.data
  | none => none

/-- Embeds `GitLabExplorer.save_pipeline_to_cache`: `REPLACE INTO
pipelines` — delete any row with the same primary key, insert the new
row holding `created_at` (denormalized from the snapshot) and the
serialized snapshot. -/
def save_pipeline_to_cache (pipeline_id : Nat) (d : PipelineData) (db : CacheDB) : CacheDB :=
  ⟨pipeline_id, d.pipeline.created_at, .json d⟩ ::
    db.filter (fun r => r.pipeline_id ≠ pipeline_id)

/-- Typed failures of the remote collaborator (spec section 6 taxonomy);
in the source any of these surfaces as a caught Python exception. -/
inductive RemoteError where
  | notFound
  | unauthorized
  | network
deriving DecidableEq, Repr

/-- The remote collaborator: `project.pipelines.get(id)` together with
`pipeline.jobs.list(all=True)`, fully materialized. -/
abbrev Remote := Nat → Except RemoteError PipelineData

/-- Embeds `GitLabExplorer.get_pipeline_details`.  Returns the result
the caller sees, the cache state after the call, and the number of
remote calls made.  On a cache hit the stored snapshot is returned with
no remote call; on a miss the remote is called once, the snapshot is
persisted when its (lowercased) status is in `COMPLETE_STATUSES`, and
any remote exception is caught, logged and turned into `none`. -/
def get_pipeline_details (remote : Remote) (db : CacheDB) (pipeline_id : Nat)
    (use_cache : Bool) : Option PipelineData × CacheDB × Nat :=
  let cached := if use_cache then get_pipeline_from_cache db pipeline_id else none
  match cached with
  | some d => (some d, db, 0)
  | none =>
    match remote pipeline_id with
    | .ok data =>
      if lowerStr data.pipeline.status ∈ COMPLETE_STATUSES then
        (some data, save_pipeline_to_cache pipeline_id data db, 1)
      else
        (some data, db, 1)
    | .error _ => (none, db, 1)

/-- Cache state after iterating `get_pipeline_details` `n` times. -/
def iterFetchDB (remote : Remote) (pipeline_id : Nat) (use_cache : Bool) :
    Nat → CacheDB → CacheDB
  | 0, db => db
  | n + 1, db =>
    iterFetchDB remote pipeline_id use_cache n
      (get_pipeline_details remote db pipeline_id use_cache).2.1

/-- Total number of remote calls made by `n` iterated fetches. -/
def iterFetchCalls (remote : Remote) (pipeline_id : Nat) (use_cache : Bool) :
    Nat → CacheDB → Nat
  | 0, _ => 0
  | n + 1, db =>
    (get_pipeline_details remote db pipeline_id use_cache).2.2 +
      iterFetchCalls remote pipeline_id use_cache n
        (get_pipeline_details remote db pipeline_id use_cache).2.1

/-- The eight pipeline/job status values of the data model. -/
def allStatuses : List String :=
  ["created", "pending", "running", "success", "failed", "canceled", "skipped", "manual"]

example : get_pipeline_details (fun _ => .error .notFound) [] 1 true = (none, [], 1) := by
  decide

example :
    get_pipeline_details
      (fun _ => .ok ⟨⟨1, "success", "t0", "t1", none⟩, []⟩) [] 1 true =
      (some ⟨⟨1, "success", "t0", "t1", none⟩, []⟩,
        [⟨1, "t0", .json ⟨⟨1, "success", "t0", "t1", none⟩, []⟩⟩], 1) := by
  decide

/-! ## Status aggregator (`get_job_status_summary`)

The completion percentage is computed in the source as
`int((completed / total * 100))` over Python floats.  Both the division
and the multiplication are correctly rounded IEEE-754 binary64
operations; they are modelled exactly with integer arithmetic: a float
is a pair mantissa/exponent, division and scaling round the infinitely
precise result to 53 significant bits, round-to-nearest ties-to-even. -/

/-- Round `n / d` to the nearest integer, ties to even (`d > 0`). -/
def rhe (n d : Nat) : Nat :=
  let q := n / d
  let r := n % d
  if 2 * r < d then q
  else if d < 2 * r then q + 1
  else if q % 2 = 0 then q else q + 1

/-- Floor of the base-2 logarithm, by structural fuel recursion (the
fuel `n` always suffices since `log2 n ≤ n`); kernel-reducible. -/
def log2f : Nat → Nat → Nat
  | 0, _ => 0
  | fuel + 1, n => if 2 ≤ n then log2f fuel (n / 2) + 1 else 0

/-- Floor of the base-2 logarithm of `n` (0 for `n ≤ 1`). -/
def natLog2 (n : Nat) : Nat := log2f n n

/-- Floor of the base-2 logarithm of the positive rational `c / t`. -/
def ratLog2 (c t : Nat) : Int :=
  let la : Int := natLog2 c
  let lb : Int := natLog2 t
  if t * 2 ^ natLog2 c ≤ c * 2 ^ natLog2 t then la - lb else la - lb - 1

/-- An unpacked binary64 value `m * 2 ^ e` (nonnegative, normal range). -/
structure FP where
  m : Nat
  e : Int
deriving DecidableEq, Repr

/-- Correctly rounded binary64 quotient of the exact integers `c` and `t`
(`c, t ≥ 1`): scale `c / t` into `[2^52, 2^53)` and round half-even. -/
def fpDiv (c t : Nat) : FP :=
  let f := ratLog2 c t
  if f ≤ 52 then ⟨rhe (c * 2 ^ (52 - f).toNat) t, f - 52⟩
  else ⟨rhe c (t * 2 ^ (f - 52).toNat), f - 52⟩

/-- Correctly rounded binary64 product `x * 100` (100 is exact). -/
def fpMul100 (x : FP) : FP :=
  let p := 100 * x.m
  let s := natLog2 p - 52
  ⟨rhe p (2 ^ s), x.e + s⟩

/-- Python `int()` on a nonnegative binary64 value: truncate. -/
def fpTrunc (x : FP) : Nat :=
  if 0 ≤ x.e then x.m * 2 ^ x.e.toNat else x.m / 2 ^ (-x.e).toNat

/-- `int((c / t * 100))` as evaluated by Python over floats (`t ≥ 1`). -/
def pyPct (c t : Nat) : Nat :=
  if c = 0 then 0 else fpTrunc (fpMul100 (fpDiv c t))

example : pyPct 29 50 = 57 := by decide
example : pyPct 29 100 = 28 := by decide
example : pyPct 87 150 = 57 := by decide
example : pyPct 1 3 = 33 := by decide
example : pyPct 50 50 = 100 := by decide
example : pyPct 0 7 = 0 := by decide
example : pyPct 3 4 = 75 := by decide

/-- Per-stage counters: the dict created at lines 239-248 of `cli.py`. -/
structure StageCounts where
  total : Nat
  success : Nat
  failed : Nat
  running : Nat
  pending : Nat
  canceled : Nat
  skipped : Nat
  manual : Nat
deriving DecidableEq, Repr

/-- The all-zero stage dict. -/
def freshStageCounts : StageCounts := ⟨0, 0, 0, 0, 0, 0, 0, 0⟩

/-- Entry of `jobs_by_stage` (lines 256-263). -/
structure JobBrief where
  id : Nat
  name : String
  status : String
  duration : Option ℚ
  started_at : Option String
  finished_at : Option String
deriving DecidableEq, Repr

/-- Entry of `failed_jobs` (lines 265-272); `finished_at` defaults to `""`. -/
structure FailedJob where
  id : Nat
  name : String
  stage : String
  duration : Option ℚ
  finished_at : String
deriving DecidableEq, Repr

/-- The `progress` sub-dict (lines 276-280). -/
structure Progress where
  completed : Nat
  total : Nat
  percentage : Nat
deriving DecidableEq, Repr

/-- The summary dict built by `get_job_status_summary`.  Python stores
stages and per-stage job lists in dicts with insertion order; they are
association lists here.  (A job status string equal to a non-integer
key of the dict, such as `"stages"`, would make the Python `+= 1`
raise; such statuses are outside the data model and not modelled.) -/
structure Summary where
  pipeline_status : String
  created_at : String
  updated_at : String
  duration : Option ℚ
  total : Nat
  success : Nat
  failed : Nat
  running : Nat
  pending : Nat
  canceled : Nat
  skipped : Nat
  manual : Nat
  failed_jobs : List FailedJob
  stages : List (String × StageCounts)
  jobs_by_stage : List (String × List JobBrief)
  progress : Progress
deriving DecidableEq, Repr

/-- The `if status in summary: summary[status] += 1` step over the
integer-valued keys of the summary dict (note `"total"` is such a key). -/
def bumpSummaryCount (s : Summary) (status : String) : Summary :=
  if status = "total" then { s with total := s.total + 1 }
  else if status = "success" then { s with success := s.success + 1 }
  else if status = "failed" then { s with failed := s.failed + 1 }
  else if status = "running" then { s with running := s.running + 1 }
  else if status = "pending" then { s with pending := s.pending + 1 }
  else if status = "canceled" then { s with canceled := s.canceled + 1 }
  else if status = "skipped" then { s with skipped := s.skipped + 1 }
  else if status = "manual" then { s with manual := s.manual + 1 }
  else s

/-- The `if status in summary['stages'][stage]` step (every key of the
stage dict is integer-valued, `"total"` included). -/
def bumpStageCount (c : StageCounts) (status : String) : StageCounts :=
  if status = "total" then { c with total := c.total + 1 }
  else if status = "success" then { c with success := c.success + 1 }
  else if status = "failed" then { c with failed := c.failed + 1 }
  else if status = "running" then { c with running := c.running + 1 }
  else if status = "pending" then { c with pending := c.pending + 1 }
  else if status = "canceled" then { c with canceled := c.canceled + 1 }
  else if status = "skipped" then { c with skipped := c.skipped + 1 }
  else if status = "manual" then { c with manual := c.manual + 1 }
  else c

/-- In-place update of an association list at an existing key. -/
def updateAssoc {α : Type} (l : List (String × α)) (k : String) (f : α → α) :
    List (String × α) :=
  match l with
  | [] => []
  | (k', v) :: rest =>
    if k' = k then (k', f v) :: rest else (k', v) :: updateAssoc rest k f

/-- One iteration of the `for job in jobs` loop of
`get_job_status_summary` (lines 229-272). -/
def stepJob (s : Summary) (job : Job) : Summary :=
  let status := lowerStr job.status
  let stage := job.stage
  let s := bumpSummaryCount s status
  let s :=
    if (s.stages.find? (fun p => p.1 == stage)).isSome then s
    else
      { s with
        stages := s.stages ++ [(stage, freshStageCounts)],
        jobs_by_stage := s.jobs_by_stage ++ [(stage, [])] }
  let s :=
    { s with
      stages :=
        updateAssoc s.stages stage fun c =>
          bumpStageCount { c with total := c.total + 1 } status }
  let s :=
    { s with
      jobs_by_stage :=
        updateAssoc s.jobs_by_stage stage fun js =>
          js ++ [⟨job.id, job.name, job.status, job.duration,
                  job.started_at, job.finished_at⟩] }
  if status = "failed" then
    { s with
      failed_jobs :=
        s.failed_jobs ++
          [⟨job.id, job.name, stage, job.duration, job.finished_at.getD ""⟩] }
  else s

/-- The body of `get_job_status_summary` after the fetch: fold the job
list into counts, stages and failed jobs, then attach `progress` with
the float-computed completion percentage (lines 207-282). -/
def build_job_status_summary (data : PipelineData) : Summary :=
  let jobs := data.jobs
  let init : Summary :=
    { pipeline_status := data.pipeline.status
      created_at := data.pipeline.created_at
      updated_at := data.pipeline.updated_at
      duration := data.pipeline.duration
      total := jobs.length
      success := 0, failed := 0, running := 0, pending := 0
      canceled := 0, skipped := 0, manual := 0
      failed_jobs := [], stages := [], jobs_by_stage := []
      progress := ⟨0, 0, 0⟩ }
  let s := jobs.foldl stepJob init
  let completed := s.success + s.failed + s.canceled + s.skipped
  { s with
    progress :=
      ⟨completed, s.total,
        if 0 < s.total then pyPct completed s.total else 0⟩ }

/-- Embeds `GitLabExplorer.get_job_status_summary`: fetch (through the
cache) then summarize; an empty fetch result yields the empty dict,
modelled as `none`. -/
def get_job_status_summary (remote : Remote) (db : CacheDB) (pipeline_id : Nat) :
    Option Summary × CacheDB :=
  match get_pipeline_details remote db pipeline_id true with
  | (none, db2, _) => (none, db2)
  | (some data, db2, _) => (some (build_job_status_summary data), db2)

/-! ## Failure extraction engine

The five extractors of `cli.py` (lines 309-481) work on raw trace text
with Python regexes.  Each regex is embedded as an explicit matcher
over `List Char`; greedy/lazy repetition and the limited backtracking
the patterns can actually perform are spelled out.  `^`/`$` follow
`re.MULTILINE`, `.` follows `re.DOTALL` exactly where the source sets
those flags. -/

/-- The failures dict initialized at lines 311-317. -/
structure Failures where
  short_summary : Option String
  detailed_failures : Option String
  stderr : Option String
  error_lines : List String
  type : String
deriving DecidableEq, Repr

/-- Case-sensitive literal: consume `p` from the front of `s`. -/
def stripPre? (p s : List Char) : Option (List Char) :=
  if isPre p s then some (s.drop p.length) else none

/-- Case-insensitive literal (the summary regex carries `re.IGNORECASE`). -/
def stripPreCI? : List Char → List Char → Option (List Char)
  | [], s => some s
  | _ :: _, [] => none
  | p :: ps, c :: cs =>
    if pyLowerChar p = pyLowerChar c then stripPreCI? ps cs else none

/-- The title of the short-summary block. -/
def summaryTitle : List Char := "short test summary info".data

/-- Matcher for `^=+\s*short test summary info\s*=+\n` (case-insensitive)
at a line start: returns the consumed header and the rest.  Each
repetition is a maximal run; maximal-munch is complete here because the
character classes of adjacent pieces are disjoint. -/
def matchSummaryHeader (s : List Char) : Option (List Char × List Char) :=
  let e1 := s.takeWhile (fun c => c = '=')
  let r1 := s.dropWhile (fun c => c = '=')
  if e1.isEmpty then none else
  let w1 := r1.takeWhile isPyWs
  let r2 := r1.dropWhile isPyWs
  match stripPreCI? summaryTitle r2 with
  | none => none
  | some r3 =>
    let w2 := r3.takeWhile isPyWs
    let r4 := r3.dropWhile isPyWs
    let e2 := r4.takeWhile (fun c => c = '=')
    let r5 := r4.dropWhile (fun c => c = '=')
    if e2.isEmpty then none else
    match r5 with
    | '\n' :: rest =>
      some (e1 ++ w1 ++ r2.take summaryTitle.length ++ w2 ++ e2 ++ ['\n'], rest)
    | _ => none

/-- The lazy body `.*?` (DOTALL) up to the lookahead `(?=^=+|\Z)`:
shortest extension ending at a line start followed by `=`, or at the
end of the text. -/
def lazyBodyEq : Bool → List Char → List Char
  | _, [] => []
  | atStart, c :: rest =>
    if atStart && c = '=' then []
    else c :: lazyBodyEq (c = '\n') rest

/-- Leftmost search of the short-summary regex: try the header at every
line start; group 1 is the header plus the lazy body. -/
def searchSummary : Bool → List Char → Option (List Char)
  | _, [] => none
  | atStart, c :: rest =>
    if atStart then
      match matchSummaryHeader (c :: rest) with
      | some (hdr, after) => some (hdr ++ lazyBodyEq true after)
      | none => searchSummary (c = '\n') rest
    else searchSummary (c = '\n') rest

/-- Matcher for `^=+\s*FAILURES\s*=+\n` (case-sensitive) at a line start. -/
def matchFailuresHeader (s : List Char) : Option (List Char × List Char) :=
  let e1 := s.takeWhile (fun c => c = '=')
  let r1 := s.dropWhile (fun c => c = '=')
  if e1.isEmpty then none else
  let w1 := r1.takeWhile isPyWs
  let r2 := r1.dropWhile isPyWs
  match stripPre? "FAILURES".data r2 with
  | none => none
  | some r3 =>
    let w2 := r3.takeWhile isPyWs
    let r4 := r3.dropWhile isPyWs
    let e2 := r4.takeWhile (fun c => c = '=')
    let r5 := r4.dropWhile (fun c => c = '=')
    if e2.isEmpty then none else
    match r5 with
    | '\n' :: rest =>
      some (e1 ++ w1 ++ "FAILURES".data ++ w2 ++ e2 ++ ['\n'], rest)
    | _ => none

/-- The lookahead `^[-=]+\s*Captured stderr call\s*[-=]+` tested at a
line start. -/
def stderrDelim (s : List Char) : Bool :=
  let d1 := s.takeWhile (fun c => c = '-' || c = '=')
  let r1 := s.dropWhile (fun c => c = '-' || c = '=')
  if d1.isEmpty then false else
  let r2 := r1.dropWhile isPyWs
  match stripPre? "Captured stderr call".data r2 with
  | none => false
  | some r3 =>
    let r4 := r3.dropWhile isPyWs
    let d2 := r4.takeWhile (fun c => c = '-' || c = '=')
    !d2.isEmpty

/-- The lazy body `.*?` up to `(?=^[-=]+\s*Captured stderr call\s*[-=]+|\Z)`. -/
def lazyBodyFail : Bool → List Char → List Char
  | _, [] => []
  | atStart, c :: rest =>
    if atStart && stderrDelim (c :: rest) then []
    else c :: lazyBodyFail (c = '\n') rest

/-- Leftmost search of the FAILURES regex. -/
def searchFailures : Bool → List Char → Option (List Char)
  | _, [] => none
  | atStart, c :: rest =>
    if atStart then
      match matchFailuresHeader (c :: rest) with
      | some (hdr, after) => some (hdr ++ lazyBodyFail true after)
      | none => searchFailures (c = '\n') rest
    else searchFailures (c = '\n') rest

/-- Matcher for the non-capturing stderr opener
`^-{5,}\s*Captured stderr call\s*-{5,}\n` at a line start: both dash
runs must have length at least 5; returns the rest after the newline. -/
def matchStderrHeader (s : List Char) : Option (List Char) :=
  let d1 := s.takeWhile (fun c => c = '-')
  let r1 := s.dropWhile (fun c => c = '-')
  if d1.length < 5 then none else
  let r2 := r1.dropWhile isPyWs
  match stripPre? "Captured stderr call".data r2 with
  | none => none
  | some r3 =>
    let r4 := r3.dropWhile isPyWs
    let d2 := r4.takeWhile (fun c => c = '-')
    let r5 := r4.dropWhile (fun c => c = '-')
    if d2.length < 5 then none else
    match r5 with
    | '\n' :: rest => some rest
    | _ => none

/-- Leftmost search of the captured-stderr regex; group 1 is only the
lazy body after the opener, up to `(?=^=+|\Z)`. -/
def searchStderr : Bool → List Char → Option (List Char)
  | _, [] => none
  | atStart, c :: rest =>
    if atStart then
      match matchStderrHeader (c :: rest) with
      | some after => some (lazyBodyEq true after)
      | none => searchStderr (c = '\n') rest
    else searchStderr (c = '\n') rest

/-- Embeds `extract_pytest_failures` (lines 346-375): three independent
regex searches, each filling one field with the stripped capture. -/
def extract_pytest_failures (trace : String) (failures : Failures) : Failures :=
  let cs := trace.data
  let f1 :=
    match searchSummary true cs with
    | some g => { failures with short_summary := some (⟨pyStrip g⟩ : String) }
    | none => failures
  let f2 :=
    match searchFailures true cs with
    | some g => { f1 with detailed_failures := some (⟨pyStrip g⟩ : String) }
    | none => f1
  match searchStderr true cs with
  | some g => { f2 with stderr := some (⟨pyStrip g⟩ : String) }
  | none => f2

/-- Greedy `\s+(.+)$` (MULTILINE, no DOTALL): try whitespace runs from
the maximal one down to length 1; `(.+)` then takes the rest of the
line, which must be nonempty.  Returns the total consumed length. -/
def tryWsDot (r : List Char) : Nat → Option Nat
  | 0 => none
  | k + 1 =>
    let g := ((r.drop (k + 1)).takeWhile (fun c => c ≠ '\n')).length
    if g = 0 then tryWsDot r k else some (k + 1 + g)

/-- Entry point for `\s+(.+)$`: start from the maximal whitespace run. -/
def matchWsDotEol (r : List Char) : Option Nat :=
  tryWsDot r (r.takeWhile isPyWs).length

/-- Matcher for the pylint module header `^\*+\s*Module\s+(.+)$` at a
line start; returns the consumed length (`match.end() - match.start()`). -/
def matchModuleHeader (s : List Char) : Option Nat :=
  let st := s.takeWhile (fun c => c = '*')
  let r1 := s.dropWhile (fun c => c = '*')
  if st.isEmpty then none else
  let w1 := r1.takeWhile isPyWs
  let r2 := r1.dropWhile isPyWs
  match stripPre? "Module".data r2 with
  | none => none
  | some r3 =>
    match matchWsDotEol r3 with
    | none => none
    | some k => some (st.length + w1.length + 6 + k)

/-- `re.finditer` over a MULTILINE `^`-anchored pattern: try the matcher
at every line start, record `(start, end)` positions, resume after each
match (all the patterns used here end at `$` on a nonempty `(.+)`, so
the resume position is never a line start).  Structural recursion on a
fuel that starts at the text length; every step consumes at least one
character, so the fuel never runs out before the text does. -/
def finditerAux (m : List Char → Option Nat) :
    Nat → List Char → Nat → Bool → List (Nat × Nat)
  | 0, _, _, _ => []
  | _ + 1, [], _, _ => []
  | fuel + 1, c :: rest, i, atStart =>
    if atStart then
      match m (c :: rest) with
      | some k =>
        (i, i + k) ::
          finditerAux m fuel ((c :: rest).drop (max 1 k)) (i + max 1 k) false
      | none => finditerAux m fuel rest (i + 1) (c = '\n')
    else finditerAux m fuel rest (i + 1) (c = '\n')

/-- `re.finditer` from the start of the text. -/
def finditerPos (m : List Char → Option Nat) (cs : List Char) : List (Nat × Nat) :=
  finditerAux m cs.length cs 0 true

/-- Parser for `\d+:\d+:\s+[A-Z]\d+:` (the tail of the pylint violation
line format). -/
def pylintViolAfter (r : List Char) : Bool :=
  let d1 := r.takeWhile Char.isDigit
  let r1 := r.dropWhile Char.isDigit
  if d1.isEmpty then false else
  match r1 with
  | ':' :: r2 =>
    let d2 := r2.takeWhile Char.isDigit
    let r3 := r2.dropWhile Char.isDigit
    if d2.isEmpty then false else
    match r3 with
    | ':' :: r4 =>
      let w := r4.takeWhile isPyWs
      let r5 := r4.dropWhile isPyWs
      if w.isEmpty then false else
      match r5 with
      | u :: r6 =>
        if 'A' ≤ u ∧ u ≤ 'Z' then
          let d3 := r6.takeWhile Char.isDigit
          let r7 := r6.dropWhile Char.isDigit
          if d3.isEmpty then false else
          match r7 with
          | ':' :: _ => true
          | _ => false
        else false
      | [] => false
    | _ => false
  | _ => false

/-- `re.match(r'^.+\.py:\d+:\d+:\s+[A-Z]\d+:', line)` as a Boolean:
some nonempty newline-free prefix is followed by `.py:` and the tail
parses (existence is what the source uses the match for). -/
def matchesPylintViolation (line : List Char) : Bool :=
  (List.range line.length).any fun i =>
    decide (1 ≤ i) && isPre ".py:".data (line.drop i) &&
      pylintViolAfter (line.drop (i + 4))

/-- Violation lines of one module section: split into lines, keep those
matching the violation format, strip each (lines 395-404). -/
def sectionViolations (sec : List Char) : List String :=
  (splitNl sec).filterMap fun line =>
    if matchesPylintViolation line then some (⟨pyStrip line⟩ : String) else none

/-- The module sections: from each header's end to the next header's
start (`violation_pattern.search(trace, module_start)`), or to the end
of the trace for the last header. -/
def pylintSections (cs : List Char) : List (Nat × Nat) → List (List Char)
  | [] => []
  | [(_, e)] => [cs.drop e]
  | (_, e) :: (s2, e2) :: rest =>
    ((cs.drop e).take (s2 - e)) :: pylintSections cs ((s2, e2) :: rest)

/-- Literal prefix of the exit-code message (lines 412). -/
def exitLit : List Char := "ERROR: Job failed: command terminated with exit code ".data

/-- Leftmost unanchored search for
`ERROR: Job failed: command terminated with exit code (\d+)`;
returns the captured digit run. -/
def searchExitCode : List Char → Option (List Char)
  | [] => none
  | c :: rest =>
    if isPre exitLit (c :: rest) then
      let d := ((c :: rest).drop exitLit.length).takeWhile Char.isDigit
      if d.isEmpty then searchExitCode rest else some d
    else searchExitCode rest

/-- Embeds `extract_pylint_failures` (lines 377-417). -/
def extract_pylint_failures (trace : String) (failures : Failures) : Failures :=
  let cs := trace.data
  let ms := finditerPos matchModuleHeader cs
  let violations := ((pylintSections cs ms).map sectionViolations).flatten
  let failures1 :=
    if violations.isEmpty then failures
    else
      let base := "Pylint found " ++ natStr violations.length ++
          " violation(s):\n" ++ String.intercalate "\n" (violations.take 20)
      let msg :=
        if 20 < violations.length then
          base ++ "\n... and " ++ natStr (violations.length - 20) ++ " more violations"
        else base
      { failures with short_summary := some msg }
  match searchExitCode cs with
  | some d =>
    if violations.isEmpty then
      { failures1 with
        short_summary := some ("Pylint failed with exit code " ++ (⟨d⟩ : String)) }
    else failures1
  | none => failures1

/-- Greedy backtracking over the split point of `^.+\.py:` at a line
start: the candidate prefix lengths run from the line length down to 1
(`.` never crosses the newline); `after` parses the pattern tail and
yields its consumed length. -/
def pyDotTry (after : List Char → Option Nat) (s : List Char) : Nat → Option Nat
  | 0 => none
  | i + 1 =>
    if isPre ".py:".data (s.drop (i + 1)) then
      match after (s.drop (i + 1 + 4)) with
      | some k => some (i + 1 + 4 + k)
      | none => pyDotTry after s i
    else pyDotTry after s i

/-- Parser for `(\d+):(\d+):\s+([A-Z]\d+)\s+(.+)$` (tail of the ruff
line format); returns the consumed length. -/
def ruffAfter (r : List Char) : Option Nat :=
  let d1 := r.takeWhile Char.isDigit
  let r1 := r.dropWhile Char.isDigit
  if d1.isEmpty then none else
  match r1 with
  | ':' :: r2 =>
    let d2 := r2.takeWhile Char.isDigit
    let r3 := r2.dropWhile Char.isDigit
    if d2.isEmpty then none else
    match r3 with
    | ':' :: r4 =>
      let w1 := r4.takeWhile isPyWs
      let r5 := r4.dropWhile isPyWs
      if w1.isEmpty then none else
      match r5 with
      | u :: r6 =>
        if 'A' ≤ u ∧ u ≤ 'Z' then
          let d3 := r6.takeWhile Char.isDigit
          let r7 := r6.dropWhile Char.isDigit
          if d3.isEmpty then none else
          match matchWsDotEol r7 with
          | none => none
          | some k =>
            some (d1.length + 1 + d2.length + 1 + w1.length + 1 + d3.length + k)
        else none
      | [] => none
    | _ => none
  | _ => none

/-- Matcher for `^(.+\.py):(\d+):(\d+):\s+([A-Z]\d+)\s+(.+)$` at a line
start. -/
def ruffMatchAt (s : List Char) : Option Nat :=
  pyDotTry ruffAfter s (s.takeWhile (fun c => c ≠ '\n')).length

/-- Embeds `extract_linting_failures` (lines 419-434): collect every
`group(0).strip()`, cap at 15 with a more-suffix. -/
def extract_linting_failures (trace : String) (failures : Failures) : Failures :=
  let cs := trace.data
  let ms := finditerPos ruffMatchAt cs
  let lint_errors :=
    ms.map fun p => (⟨pyStrip ((cs.drop p.1).take (p.2 - p.1))⟩ : String)
  if lint_errors.isEmpty then failures
  else
    let base := "Linting found " ++ natStr lint_errors.length ++
        " issue(s):\n" ++ String.intercalate "\n" (lint_errors.take 15)
    let msg :=
      if 15 < lint_errors.length then
        base ++ "\n... and " ++ natStr (lint_errors.length - 15) ++ " more issues"
      else base
    { failures with short_summary := some msg }

/-- Parser for `(\d+):\s+error:\s+(.+)$` (tail of the mypy line
format); returns the consumed length. -/
def mypyAfter (r : List Char) : Option Nat :=
  let d1 := r.takeWhile Char.isDigit
  let r1 := r.dropWhile Char.isDigit
  if d1.isEmpty then none else
  match r1 with
  | ':' :: r2 =>
    let w1 := r2.takeWhile isPyWs
    let r3 := r2.dropWhile isPyWs
    if w1.isEmpty then none else
    match stripPre? "error:".data r3 with
    | none => none
    | some r4 =>
      match matchWsDotEol r4 with
      | none => none
      | some k => some (d1.length + 1 + w1.length + 6 + k)
  | _ => none

/-- Matcher for `^(.+\.py):(\d+):\s+error:\s+(.+)$` at a line start. -/
def mypyMatchAt (s : List Char) : Option Nat :=
  pyDotTry mypyAfter s (s.takeWhile (fun c => c ≠ '\n')).length

/-- Embeds `extract_typecheck_failures` (lines 436-451). -/
def extract_typecheck_failures (trace : String) (failures : Failures) : Failures :=
  let cs := trace.data
  let ms := finditerPos mypyMatchAt cs
  let type_errors :=
    ms.map fun p => (⟨pyStrip ((cs.drop p.1).take (p.2 - p.1))⟩ : String)
  if type_errors.isEmpty then failures
  else
    let base := "Type checking found " ++ natStr type_errors.length ++
        " error(s):\n" ++ String.intercalate "\n" (type_errors.take 15)
    let msg :=
      if 15 < type_errors.length then
        base ++ "\n... and " ++ natStr (type_errors.length - 15) ++ " more errors"
      else base
    { failures with short_summary := some msg }

/-- Index of the first line containing `Job failed` (the `ERROR: Job
failed` disjunct of line 461 is subsumed but kept); Python keeps `-1`
when absent. -/
def findFailedIdx : List (List Char) → Option Nat
  | [] => none
  | l :: rest =>
    if strIn "ERROR: Job failed".data l || strIn "Job failed".data l then some 0
    else (findFailedIdx rest).map (· + 1)

/-- The case-insensitive keywords of the generic extractor (line 474). -/
def genericKeywords : List (List Char) :=
  ["error".data, "failed".data, "exception".data, "fatal".data, "abort".data]

/-- Embeds `extract_generic_failures` (lines 453-481).  Note the source
guard is `failed_index > 0`: a `Job failed` on the very first line
falls through to the keyword scan. -/
def extract_generic_failures (trace : String) (failures : Failures) : Failures :=
  let lines := splitNl trace.data
  let failed_index : Int :=
    match findFailedIdx lines with
    | some i => (i : Int)
    | none => -1
  if 0 < failed_index then
    let fi := failed_index.toNat
    let start_index := fi - 30
    let context_lines := (lines.drop start_index).take (fi + 1 - start_index)
    { failures with
      short_summary :=
        some (⟨"Job failed. Last 30 lines:\n".data ++ joinNl context_lines⟩ : String) }
  else
    let error_lines :=
      (lines.filter fun l =>
          genericKeywords.any fun k => strIn k (pyLower l)).map
        fun l => (⟨pyStrip l⟩ : String)
    if error_lines.isEmpty then failures
    else
      { failures with
        short_summary :=
          some ("Error lines found:\n" ++
            String.intercalate "\n" (error_lines.take 20)),
        error_lines := error_lines.take 20 }

/-- Embeds `extract_failures_from_trace` (lines 309-344): initialize
the report, classify by case-insensitive substring tests on the job
name (first match wins), dispatch to the matching extractor. -/
def extract_failures_from_trace (trace : String) (job_name : String) : Failures :=
  let failures : Failures := ⟨none, none, none, [], "generic"⟩
  let jn := pyLower job_name.data
  if strIn "pylint".data jn then
    extract_pylint_failures trace { failures with type := "pylint" }
  else if ["test", "pytest", "integration", "unit"].any (fun w => strIn w.data jn) then
    extract_pytest_failures trace { failures with type := "pytest" }
  else if strIn "ruff".data jn || strIn "lint".data jn then
    extract_linting_failures trace { failures with type := "linting" }
  else if strIn "mypy".data jn || strIn "type".data jn then
    extract_typecheck_failures trace { failures with type := "typecheck" }
  else
    extract_generic_failures trace failures

/-! ## Helper lemmas for the cache layer -/

/-- The eight status strings of the data model are already lowercase. -/
lemma lowerStr_of_valid (s : String) (h : s ∈ allStatuses) : lowerStr s = s := by
  simp [allStatuses] at h
  rcases h with h | h | h | h | h | h | h | h <;> subst h <;> decide

/-- A snapshot saved to the cache is retrievable. -/
lemma get_after_save (db : CacheDB) (pid : Nat) (d : PipelineData) :
    get_pipeline_from_cache (save_pipeline_to_cache pid d db) pid = some d := by
  simp [get_pipeline_from_cache, save_pipeline_to_cache, List.find?_cons, decodeBlob]

/-- On a cache hit the fetcher returns the stored snapshot, leaves the
cache alone and makes no remote call. -/
lemma fetch_from_cache_hit (remote : Remote) (db : CacheDB) (pid : Nat)
    (d : PipelineData) (hhit : get_pipeline_from_cache db pid = some d) :
    get_pipeline_details remote db pid true = (some d, db, 0) := by
  simp [get_pipeline_details, hhit]

/-- A fetch that reaches the remote and sees a complete status writes
exactly the fetched snapshot through `save_pipeline_to_cache`. -/
lemma fetch_state_of_admit (remote : Remote) (db : CacheDB) (pid : Nat)
    (d : PipelineData) (u : Bool)
    (hok : remote pid = .ok d)
    (hmiss : (if u then get_pipeline_from_cache db pid else none) = none)
    (hlow : lowerStr d.pipeline.status ∈ COMPLETE_STATUSES) :
    (get_pipeline_details remote db pid u).2.1 = save_pipeline_to_cache pid d db := by
  simp [get_pipeline_details, hmiss, hok, hlow]

/-- A fetch of a pipeline whose status is not complete never changes
the cache (hit or miss alike). -/
lemma fetch_state_of_nonadmit (remote : Remote) (db : CacheDB) (pid : Nat)
    (d : PipelineData) (u : Bool)
    (hok : remote pid = .ok d)
    (hlow : lowerStr d.pipeline.status ∉ COMPLETE_STATUSES) :
    (get_pipeline_details remote db pid u).2.1 = db := by
  unfold get_pipeline_details
  cases hc : (if u then get_pipeline_from_cache db pid else none) with
  | none => simp [hc, hok, hlow]
  | some d2 => simp [hc]

/-- Iterating fetches of a non-complete pipeline never changes the cache. -/
lemma iter_state_of_nonadmit (remote : Remote) (pid : Nat) (d : PipelineData)
    (u : Bool) (hok : remote pid = .ok d)
    (hlow : lowerStr d.pipeline.status ∉ COMPLETE_STATUSES) :
    ∀ n db, iterFetchDB remote pid u n db = db := by
  intro n
  induction n with
  | zero => intro db; rfl
  | succ n ih =>
    intro db
    have hstep := fetch_state_of_nonadmit remote db pid d u hok hlow
    calc iterFetchDB remote pid u (n + 1) db
        = iterFetchDB remote pid u n (get_pipeline_details remote db pid u).2.1 := rfl
      _ = iterFetchDB remote pid u n db := by rw [hstep]
      _ = db := ih db

/-- C1: for every pipeline actually fetched from the remote, the cache
record is written exactly when the status is in the terminal set
{success, failed, canceled, skipped} (and is then retrievable), and for
a pipeline in {running, pending, created, manual} no record is ever
written, for any number of fetch calls. -/
theorem cache_admission_policy (remote : Remote) (db : CacheDB) (pid : Nat)
    (d : PipelineData) (u : Bool)
    (hok : remote pid = .ok d)
    (hmiss : (if u then get_pipeline_from_cache db pid else none) = none)
    (hvalid : d.pipeline.status ∈ allStatuses) :
    (d.pipeline.status ∈ COMPLETE_STATUSES →
      (get_pipeline_details remote db pid u).2.1 = save_pipeline_to_cache pid d db ∧
      get_pipeline_from_cache (get_pipeline_details remote db pid u).2.1 pid = some d) ∧
    (d.pipeline.status ∉ COMPLETE_STATUSES →
      (get_pipeline_details remote db pid u).2.1 = db) ∧
    (d.pipeline.status ∈ ["running", "pending", "created", "manual"] →
      ∀ n, iterFetchDB remote pid u n db = db) := by
  have hls := lowerStr_of_valid d.pipeline.status hvalid
  refine ⟨fun hterm => ?_, fun hnot => ?_, fun hrun => ?_⟩
  · have hwrote := fetch_state_of_admit remote db pid d u hok hmiss (by rw [hls]; exact hterm)
    exact ⟨hwrote, by rw [hwrote]; exact get_after_save db pid d⟩
  · exact fetch_state_of_nonadmit remote db pid d u hok (by rw [hls]; exact hnot)
  · intro n
    have hnot : d.pipeline.status ∉ COMPLETE_STATUSES := by
      simp only [List.mem_cons, List.not_mem_nil, or_false] at hrun
      rcases hrun with h | h | h | h <;> rw [h] <;> decide
    exact iter_state_of_nonadmit remote pid d u hok (by rw [hls]; exact hnot) n db

/-- Witness for C1 at a concrete terminal and a concrete running pipeline. -/
theorem cache_admission_policy_witness :
    ((get_pipeline_details (fun _ => .ok ⟨⟨5, "success", "t0", "t1", none⟩, []⟩) [] 5 true).2.1 =
       save_pipeline_to_cache 5 ⟨⟨5, "success", "t0", "t1", none⟩, []⟩ []) ∧
    iterFetchDB (fun _ => .ok ⟨⟨6, "running", "t0", "t1", none⟩, []⟩) 6 true 3 [] = [] := by
  constructor
  · exact ((cache_admission_policy (fun _ => .ok ⟨⟨5, "success", "t0", "t1", none⟩, []⟩)
      [] 5 ⟨⟨5, "success", "t0", "t1", none⟩, []⟩ true rfl (by decide) (by decide)).1
        (by decide)).1
  · exact (cache_admission_policy (fun _ => .ok ⟨⟨6, "running", "t0", "t1", none⟩, []⟩)
      [] 6 ⟨⟨6, "running", "t0", "t1", none⟩, []⟩ true rfl (by decide) (by decide)).2.2
        (by decide) 3

/-- C2: once a terminal pipeline has been fetched (through a cache
miss), every later call with `use_cache = true` returns exactly the
stored snapshot, leaves the cache unchanged, and performs no remote
call, for any number of repetitions. -/
theorem cache_hit_after_terminal_fetch (remote : Remote) (db db1 : CacheDB) (pid : Nat)
    (d : PipelineData) (u : Bool)
    (hok : remote pid = .ok d)
    (hmiss : (if u then get_pipeline_from_cache db pid else none) = none)
    (hterm : d.pipeline.status ∈ COMPLETE_STATUSES)
    (hvalid : d.pipeline.status ∈ allStatuses)
    (hdb1 : db1 = (get_pipeline_details remote db pid u).2.1) :
    get_pipeline_details remote db1 pid true = (some d, db1, 0) ∧
    (∀ n, iterFetchDB remote pid true n db1 = db1) ∧
    (∀ n, iterFetchCalls remote pid true n db1 = 0) := by
  have hls := lowerStr_of_valid d.pipeline.status hvalid
  have hwrote := fetch_state_of_admit remote db pid d u hok hmiss (by rw [hls]; exact hterm)
  have hhit : get_pipeline_from_cache db1 pid = some d := by
    rw [hdb1, hwrote]; exact get_after_save db pid d
  have hone := fetch_from_cache_hit remote db1 pid d hhit
  refine ⟨hone, ?_, ?_⟩
  · intro n
    induction n with
    | zero => rfl
    | succ n ih =>
      calc iterFetchDB remote pid true (n + 1) db1
          = iterFetchDB remote pid true n (get_pipeline_details remote db1 pid true).2.1 := rfl
        _ = iterFetchDB remote pid true n db1 := by rw [hone]
        _ = db1 := ih
  · intro n
    induction n with
    | zero => rfl
    | succ n ih =>
      calc iterFetchCalls remote pid true (n + 1) db1
          = (get_pipeline_details remote db1 pid true).2.2 +
              iterFetchCalls remote pid true n (get_pipeline_details remote db1 pid true).2.1 := rfl
        _ = 0 + iterFetchCalls remote pid true n db1 := by rw [hone]
        _ = 0 := by rw [Nat.zero_add]; exact ih

/-- Witness for C2: fetch a concrete failed pipeline, then hit the cache. -/
theorem cache_hit_after_terminal_fetch_witness :
    get_pipeline_details (fun _ => .ok ⟨⟨4, "failed", "t0", "t1", none⟩, []⟩)
        [⟨4, "t0", .json ⟨⟨4, "failed", "t0", "t1", none⟩, []⟩⟩] 4 true =
      (some ⟨⟨4, "failed", "t0", "t1", none⟩, []⟩,
        [⟨4, "t0", .json ⟨⟨4, "failed", "t0", "t1", none⟩, []⟩⟩], 0) :=
  (cache_hit_after_terminal_fetch (fun _ => .ok ⟨⟨4, "failed", "t0", "t1", none⟩, []⟩)
    [] [⟨4, "t0", .json ⟨⟨4, "failed", "t0", "t1", none⟩, []⟩⟩] 4
    ⟨⟨4, "failed", "t0", "t1", none⟩, []⟩ true rfl (by decide) (by decide) (by decide)
    (by decide)).1

/-- C3 counterexample: a remote failure is not surfaced to the caller
as a typed error — the caller receives the empty result `none`, and the
result is byte-for-byte identical for a not-found, an auth failure and
a network error, so the caller cannot distinguish them.  (The return
type of the fetcher carries no error component at all: the `except`
block prints and returns `None`.) -/
theorem remote_failure_counterexample :
    get_pipeline_details (fun _ => .error .notFound) [] 7 true = (none, [], 1) ∧
    get_pipeline_details (fun _ => .error .unauthorized) [] 7 true = (none, [], 1) ∧
    get_pipeline_details (fun _ => .error .network) [] 7 true = (none, [], 1) := by
  exact ⟨rfl, rfl, rfl⟩

/-- C3 amended: every remote-call failure is caught, logged and turned
into the empty result `none`; the cache is left unchanged, exactly one
remote call is made (no automatic retry), and no typed error reaches
the caller. -/
theorem remote_failure_returns_none (remote : Remote) (db : CacheDB) (pid : Nat)
    (e : RemoteError) (u : Bool)
    (hmiss : (if u then get_pipeline_from_cache db pid else none) = none)
    (herr : remote pid = .error e) :
    get_pipeline_details remote db pid u = (none, db, 1) := by
  simp [get_pipeline_details, hmiss, herr]

/-- Witness for the amended C3 on a nonempty cache and a not-found
failure for a different pipeline id. -/
theorem remote_failure_returns_none_witness :
    get_pipeline_details (fun _ => .error .notFound)
        [⟨3, "t0", .json ⟨⟨3, "success", "t0", "t1", none⟩, []⟩⟩] 8 true =
      (none, [⟨3, "t0", .json ⟨⟨3, "success", "t0", "t1", none⟩, []⟩⟩], 1) :=
  remote_failure_returns_none (fun _ => .error .notFound)
    [⟨3, "t0", .json ⟨⟨3, "success", "t0", "t1", none⟩, []⟩⟩] 8 .notFound true
    (by decide) rfl

/-- C7: `REPLACE INTO` is an idempotent upsert with last-write-wins:
after two puts under the same id the get returns exactly the second
payload, and the table state is literally the state of a single put of
the second payload (no trace of the first remains). -/
theorem cache_put_last_write_wins (db : CacheDB) (pid : Nat) (d1 d2 : PipelineData) :
    get_pipeline_from_cache
        (save_pipeline_to_cache pid d2 (save_pipeline_to_cache pid d1 db)) pid = some d2 ∧
    save_pipeline_to_cache pid d2 (save_pipeline_to_cache pid d1 db) =
      save_pipeline_to_cache pid d2 db := by
  constructor
  · exact get_after_save _ pid d2
  · simp [save_pipeline_to_cache, List.filter_cons, List.filter_filter]

/-- C8: a stored record whose blob fails to deserialize is reported as
a cache miss (`None`), and the read-through path is unaffected: with
the corrupt record present, a cached fetch behaves exactly like an
uncached one. -/
theorem corrupt_cache_is_miss (db : CacheDB) (pid : Nat) (remote : Remote)
    (row : CacheRow) (raw : String)
    (hrow : db.find? (fun r => r.pipeline_id == pid) = some row)
    (hcor : row.data = .corrupt raw) :
    get_pipeline_from_cache db pid = none ∧
    get_pipeline_details remote db pid true = get_pipeline_details remote db pid false := by
  have h1 : get_pipeline_from_cache db pid = none := by
    simp [get_pipeline_from_cache, hrow, hcor, decodeBlob]
  exact ⟨h1, by simp [get_pipeline_details, h1]⟩

/-- Witness for C8: a concrete corrupt row is a miss and reads through. -/
theorem corrupt_cache_is_miss_witness :
    get_pipeline_from_cache [⟨9, "t0", .corrupt "junk"⟩] 9 = none ∧
    get_pipeline_details (fun _ => .error .network) [⟨9, "t0", .corrupt "junk"⟩] 9 true =
      get_pipeline_details (fun _ => .error .network) [⟨9, "t0", .corrupt "junk"⟩] 9 false :=
  corrupt_cache_is_miss [⟨9, "t0", .corrupt "junk"⟩] 9 (fun _ => .error .network)
    ⟨9, "t0", .corrupt "junk"⟩ "junk" (by decide) rfl

/-! ## Extractor theorems -/

/-- C4: every extractor is a total function (each is a plain Lean
function over total matchers, so no input can make extraction fail),
on the empty input each returns its report argument unchanged with all
produced fields empty/absent, and more generally whenever its patterns
produce no match the report passes through unchanged, for an arbitrary
incoming report `f`. -/
theorem extractor_totality (f : Failures) :
    (extract_pytest_failures "" f = f ∧
      extract_pylint_failures "" f = f ∧
      extract_linting_failures "" f = f ∧
      extract_typecheck_failures "" f = f ∧
      extract_generic_failures "" f = f) ∧
    (∀ (trace : String) (g : Failures),
      (searchSummary true trace.data = none → searchFailures true trace.data = none →
        searchStderr true trace.data = none → extract_pytest_failures trace g = g) ∧
      (finditerPos matchModuleHeader trace.data = [] →
        searchExitCode trace.data = none → extract_pylint_failures trace g = g) ∧
      (finditerPos ruffMatchAt trace.data = [] → extract_linting_failures trace g = g) ∧
      (finditerPos mypyMatchAt trace.data = [] → extract_typecheck_failures trace g = g) ∧
      (findFailedIdx (splitNl trace.data) = none →
        (splitNl trace.data).filter
            (fun l => genericKeywords.any fun k => strIn k (pyLower l)) = [] →
        extract_generic_failures trace g = g)) := by
  refine ⟨⟨rfl, rfl, rfl, rfl, rfl⟩, fun trace g => ⟨?_, ?_, ?_, ?_, ?_⟩⟩
  · intro h1 h2 h3
    simp only [extract_pytest_failures, h1, h2, h3]
  · intro h1 h2
    simp only [extract_pylint_failures, h1, h2, pylintSections]
    rfl
  · intro h1
    simp only [extract_linting_failures, h1]
    rfl
  · intro h1
    simp only [extract_typecheck_failures, h1]
    rfl
  · intro h1 h2
    simp only [extract_generic_failures, h1, h2]
    rfl

/-- Witness for C4: a trace none of the five pattern families matches. -/
theorem extractor_totality_witness :
    extract_linting_failures "all good here" ⟨none, none, none, [], "linting"⟩ =
      ⟨none, none, none, [], "linting"⟩ ∧
    extract_pytest_failures "all good here" ⟨none, none, none, [], "pytest"⟩ =
      ⟨none, none, none, [], "pytest"⟩ :=
  ⟨((extractor_totality ⟨none, none, none, [], "linting"⟩).2 "all good here"
      ⟨none, none, none, [], "linting"⟩).2.2.1 (by decide),
   ((extractor_totality ⟨none, none, none, [], "pytest"⟩).2 "all good here"
      ⟨none, none, none, [], "pytest"⟩).1 (by decide) (by decide) (by decide)⟩

/-- The pytest extractor never touches the `type` field. -/
lemma extract_pytest_type_preserved (trace : String) (f : Failures) :
    (extract_pytest_failures trace f).type = f.type := by
  simp only [extract_pytest_failures]
  repeat' split
  all_goals rfl

/-- The pylint extractor never touches the `type` field. -/
lemma extract_pylint_type_preserved (trace : String) (f : Failures) :
    (extract_pylint_failures trace f).type = f.type := by
  simp only [extract_pylint_failures]
  repeat' split
  all_goals rfl

/-- The ruff-style extractor never touches the `type` field. -/
lemma extract_linting_type_preserved (trace : String) (f : Failures) :
    (extract_linting_failures trace f).type = f.type := by
  simp only [extract_linting_failures]
  repeat' split
  all_goals rfl

/-- The mypy-style extractor never touches the `type` field. -/
lemma extract_typecheck_type_preserved (trace : String) (f : Failures) :
    (extract_typecheck_failures trace f).type = f.type := by
  simp only [extract_typecheck_failures]
  repeat' split
  all_goals rfl

/-- The generic extractor never touches the `type` field. -/
lemma extract_generic_type_preserved (trace : String) (f : Failures) :
    (extract_generic_failures trace f).type = f.type := by
  simp only [extract_generic_failures]
  repeat' split
  all_goals rfl

/-- C5: the classifier tests case-insensitive substrings of the job
name with first-match-wins ordering — pylint, then the test words, then
ruff/lint, then mypy/type, else generic — and in particular the name
"pytest-lint-checker" classifies as test-framework extraction, for
every trace. -/
theorem classifier_first_match_wins (trace name : String) :
    (strIn "pylint".data (pyLower name.data) = true →
      (extract_failures_from_trace trace name).type = "pylint") ∧
    (strIn "pylint".data (pyLower name.data) = false →
      (["test", "pytest", "integration", "unit"].any
          (fun w => strIn w.data (pyLower name.data))) = true →
      (extract_failures_from_trace trace name).type = "pytest") ∧
    (strIn "pylint".data (pyLower name.data) = false →
      (["test", "pytest", "integration", "unit"].any
          (fun w => strIn w.data (pyLower name.data))) = false →
      (strIn "ruff".data (pyLower name.data) || strIn "lint".data (pyLower name.data)) = true →
      (extract_failures_from_trace trace name).type = "linting") ∧
    (strIn "pylint".data (pyLower name.data) = false →
      (["test", "pytest", "integration", "unit"].any
          (fun w => strIn w.data (pyLower name.data))) = false →
      (strIn "ruff".data (pyLower name.data) || strIn "lint".data (pyLower name.data)) = false →
      (strIn "mypy".data (pyLower name.data) || strIn "type".data (pyLower name.data)) = true →
      (extract_failures_from_trace trace name).type = "typecheck") ∧
    (strIn "pylint".data (pyLower name.data) = false →
      (["test", "pytest", "integration", "unit"].any
          (fun w => strIn w.data (pyLower name.data))) = false →
      (strIn "ruff".data (pyLower name.data) || strIn "lint".data (pyLower name.data)) = false →
      (strIn "mypy".data (pyLower name.data) || strIn "type".data (pyLower name.data)) = false →
      (extract_failures_from_trace trace name).type = "generic") ∧
    (extract_failures_from_trace trace "pytest-lint-checker").type = "pytest" := by
  refine ⟨fun h1 => ?_, fun h1 h2 => ?_, fun h1 h2 h3 => ?_,
    fun h1 h2 h3 h4 => ?_, fun h1 h2 h3 h4 => ?_, ?_⟩
  · simp only [extract_failures_from_trace, h1, if_true]
    exact extract_pylint_type_preserved trace _
  · simp only [extract_failures_from_trace, h1, h2, Bool.false_eq_true, if_false, if_true]
    exact extract_pytest_type_preserved trace _
  · simp only [extract_failures_from_trace, h1, h2, h3, Bool.false_eq_true, if_false, if_true]
    exact extract_linting_type_preserved trace _
  · simp only [extract_failures_from_trace, h1, h2, h3, h4, Bool.false_eq_true, if_false,
      if_true]
    exact extract_typecheck_type_preserved trace _
  · simp only [extract_failures_from_trace, h1, h2, h3, h4, Bool.false_eq_true, if_false]
    exact extract_generic_type_preserved trace _
  · have hA : strIn "pylint".data (pyLower ("pytest-lint-checker" : String).data) = false := by
      decide
    have hB : (["test", "pytest", "integration", "unit"].any
        (fun w => strIn w.data (pyLower ("pytest-lint-checker" : String).data))) = true := by
      decide
    simp only [extract_failures_from_trace, hA, hB, Bool.false_eq_true, if_false, if_true]
    exact extract_pytest_type_preserved trace _

/-- Witness for C5 at concrete names and a concrete trace. -/
theorem classifier_first_match_wins_witness :
    strIn "pylint".data (pyLower ("nightly-pylint" : String).data) = true ∧
    (extract_failures_from_trace "boom" "nightly-pylint").type = "pylint" :=
  ⟨by decide, (classifier_first_match_wins "boom" "nightly-pylint").1 (by decide)⟩

/-! ## Status aggregator theorems -/

set_option maxRecDepth 40000

/-- A 50-job pipeline with 29 completed jobs (29 success, 21 running):
`29 / 50 * 100` rounds in binary64 to `57.99999999999999...`, which
Python truncates to 57 while `floor(100 * 29 / 50) = 58`. -/
def pipeData50 : PipelineData :=
  ⟨⟨50, "running", "t0", "t1", none⟩,
    (List.range 29).map (fun i => ⟨i, "job", "success", "build", none, none, none⟩) ++
      (List.range 21).map (fun i => ⟨29 + i, "job", "running", "build", none, none, none⟩)⟩

/-- C6 counterexample: the completion percentage the code computes is
not `floor(100 × completed / total)` — on 29 completed of 50 the code
yields 57 where the floor is 58 (Python `int(29/50*100) == 57`). -/
theorem summary_percentage_counterexample :
    (build_job_status_summary pipeData50).progress.completed = 29 ∧
    (build_job_status_summary pipeData50).progress.total = 50 ∧
    (build_job_status_summary pipeData50).progress.percentage = 57 ∧
    100 * 29 / 50 = 58 ∧
    (build_job_status_summary pipeData50).progress.percentage ≠
      100 * (build_job_status_summary pipeData50).progress.completed /
        (build_job_status_summary pipeData50).progress.total := by
  decide

set_option maxHeartbeats 3000000

/-- The float-computed percentage stays within one of the exact floor
for every completed/total pair with total at most 50 (checked
exhaustively over the exact binary64 model). -/
lemma pyPct_floor_bound :
    ∀ t < 51, ∀ c < t + 1, 1 ≤ t →
      (100 * c / t - 1 ≤ pyPct c t ∧ pyPct c t ≤ 100 * c / t) := by
  decide

set_option maxHeartbeats 200000

/-- The percentage field is the guarded float computation. -/
lemma build_progress_percentage (data : PipelineData) :
    (build_job_status_summary data).progress.percentage =
      if 0 < (build_job_status_summary data).progress.total then
        pyPct (build_job_status_summary data).progress.completed
          (build_job_status_summary data).progress.total
      else 0 := rfl

/-- C6 amended: the aggregator computes the completion percentage as
Python's `int(completed / total * 100)` over binary64 floats — exactly
the two-rounding model `pyPct` — which equals `floor(100×completed/total)`
or that floor minus one (proved for all totals up to 50; it is 57, not
58, at 29 of 50); the empty job list yields `total = 0` and
`percentage = 0` with no division fault. -/
theorem summary_percentage_float (data : PipelineData)
    (hpos : 1 ≤ (build_job_status_summary data).progress.total)
    (hle : (build_job_status_summary data).progress.total ≤ 50)
    (hc : (build_job_status_summary data).progress.completed ≤
      (build_job_status_summary data).progress.total) :
    (build_job_status_summary data).progress.percentage =
      pyPct (build_job_status_summary data).progress.completed
        (build_job_status_summary data).progress.total ∧
    100 * (build_job_status_summary data).progress.completed /
        (build_job_status_summary data).progress.total - 1 ≤
      (build_job_status_summary data).progress.percentage ∧
    (build_job_status_summary data).progress.percentage ≤
      100 * (build_job_status_summary data).progress.completed /
        (build_job_status_summary data).progress.total ∧
    (∀ pa : PipelineAttrs,
      (build_job_status_summary ⟨pa, []⟩).total = 0 ∧
      (build_job_status_summary ⟨pa, []⟩).progress = ⟨0, 0, 0⟩) := by
  have hpct : (build_job_status_summary data).progress.percentage =
      pyPct (build_job_status_summary data).progress.completed
        (build_job_status_summary data).progress.total := by
    rw [build_progress_percentage, if_pos (Nat.lt_of_lt_of_le Nat.zero_lt_one hpos)]
  have hbound := pyPct_floor_bound (build_job_status_summary data).progress.total
    (Nat.lt_succ_of_le hle) (build_job_status_summary data).progress.completed
    (Nat.lt_succ_of_le hc) hpos
  exact ⟨hpct, by rw [hpct]; exact hbound.1, by rw [hpct]; exact hbound.2,
    fun pa => ⟨rfl, rfl⟩⟩

/-- Witness for the amended C6 at the concrete 29-of-50 job list. -/
theorem summary_percentage_float_witness :
    100 * (build_job_status_summary pipeData50).progress.completed /
        (build_job_status_summary pipeData50).progress.total - 1 ≤
      (build_job_status_summary pipeData50).progress.percentage ∧
    (build_job_status_summary pipeData50).progress.percentage ≤
      100 * (build_job_status_summary pipeData50).progress.completed /
        (build_job_status_summary pipeData50).progress.total :=
  ⟨(summary_percentage_float pipeData50 (by decide) (by decide) (by decide)).2.1,
   (summary_percentage_float pipeData50 (by decide) (by decide) (by decide)).2.2.1⟩

/-! ## Delimiter recognition (C9) -/

/-- A maximal run of `ch` stops exactly at a suffix it cannot enter. -/
lemma takeWhile_rep_append (p : Char → Bool) (ch : Char) (hp : p ch = true) (a : Nat)
    (l : List Char) (hl : l.takeWhile p = []) :
    (List.replicate a ch ++ l).takeWhile p = List.replicate a ch := by
  induction a with
  | zero => simpa using hl
  | succ a ih => simp [List.replicate_succ, List.takeWhile_cons, hp, ih]

/-- Companion of `takeWhile_rep_append` for the remaining suffix. -/
lemma dropWhile_rep_append (p : Char → Bool) (ch : Char) (hp : p ch = true) (a : Nat)
    (l : List Char) (hl : l.dropWhile p = l) :
    (List.replicate a ch ++ l).dropWhile p = l := by
  induction a with
  | zero => simpa using hl
  | succ a ih => simp [List.replicate_succ, List.dropWhile_cons, hp, ih]

/-- A case-insensitive literal always consumes itself. -/
lemma stripPreCI_self : ∀ (p X : List Char), stripPreCI? p (p ++ X) = some X
  | [], _ => rfl
  | c :: ps, X => by simp [stripPreCI?, stripPreCI_self ps X]

/-- C9 counterexample: the opening delimiter of the short-summary
block is recognized with runs of a single `=` (the regex is `=+`, not
a run of five or more), and a single leading space on the delimiter
line defeats recognition (the regex anchors `^=+` directly at the line
start, tolerating no leading whitespace). -/
theorem pytest_delimiter_counterexample :
    (extract_pytest_failures "=short test summary info=\nFAILED t"
        ⟨none, none, none, [], "pytest"⟩).short_summary =
      some "=short test summary info=\nFAILED t" ∧
    (extract_pytest_failures " ===== short test summary info =====\nFAILED t"
        ⟨none, none, none, [], "pytest"⟩).short_summary = none := by
  decide

/-- C9 amended: the summary/FAILURES openers need runs of one or more
`=` on each side of the title (whitespace between run and title is
tolerated, also across newlines), anchored with no leading whitespace
and closed by a newline immediately after the second run; only the
stderr opener demands runs of five or more `-`. -/
theorem pytest_delimiter_rules :
    (∀ a b (rest : List Char), 1 ≤ a → 1 ≤ b →
      matchSummaryHeader
          (List.replicate a '=' ++ summaryTitle ++ List.replicate b '=' ++ '\n' :: rest) =
        some (List.replicate a '=' ++ summaryTitle ++ List.replicate b '=' ++ ['\n'],
          rest)) ∧
    (∀ c (rest : List Char), isPyWs c = true → matchSummaryHeader (c :: rest) = none) ∧
    matchStderrHeader "---- Captured stderr call ----\nX".data = none ∧
    matchStderrHeader "----- Captured stderr call -----\nX".data = some "X".data ∧
    matchSummaryHeader "= short test summary info =\nX".data =
      some ("= short test summary info =\n".data, "X".data) ∧
    matchSummaryHeader "===== short test summary info ===== \nX".data = none ∧
    matchFailuresHeader "=FAILURES=\nX".data = some ("=FAILURES=\n".data, "X".data) := by
  refine ⟨?_, ?_, by decide, by decide, by decide, by decide, by decide⟩
  · intro a b rest ha hb
    obtain ⟨a, rfl⟩ : ∃ n, a = n + 1 := ⟨a - 1, by omega⟩
    obtain ⟨b, rfl⟩ : ∃ n, b = n + 1 := ⟨b - 1, by omega⟩
    have hE1 := takeWhile_rep_append (fun c => c = '=') '=' (by decide) (a + 1)
      (summaryTitle ++ (List.replicate (b + 1) '=' ++ '\n' :: rest)) rfl
    have hR1 := dropWhile_rep_append (fun c => c = '=') '=' (by decide) (a + 1)
      (summaryTitle ++ (List.replicate (b + 1) '=' ++ '\n' :: rest)) rfl
    have tW1 : (summaryTitle ++ (List.replicate (b + 1) '=' ++ '\n' :: rest)).takeWhile
        isPyWs = [] := rfl
    have dW1 : (summaryTitle ++ (List.replicate (b + 1) '=' ++ '\n' :: rest)).dropWhile
        isPyWs = summaryTitle ++ (List.replicate (b + 1) '=' ++ '\n' :: rest) := rfl
    have hCI := stripPreCI_self summaryTitle (List.replicate (b + 1) '=' ++ '\n' :: rest)
    have tW2 : (List.replicate (b + 1) '=' ++ '\n' :: rest).takeWhile isPyWs = [] := rfl
    have dW2 : (List.replicate (b + 1) '=' ++ '\n' :: rest).dropWhile isPyWs =
        List.replicate (b + 1) '=' ++ '\n' :: rest := rfl
    have hE2 := takeWhile_rep_append (fun c => c = '=') '=' (by decide) (b + 1)
      ('\n' :: rest) rfl
    have hR5 := dropWhile_rep_append (fun c => c = '=') '=' (by decide) (b + 1)
      ('\n' :: rest) rfl
    have hTake : (summaryTitle ++ (List.replicate (b + 1) '=' ++ '\n' :: rest)).take
        summaryTitle.length = summaryTitle := List.take_left _ _
    have hEmp1 : (List.replicate (a + 1) '=').isEmpty = false := rfl
    have hEmp2 : (List.replicate (b + 1) '=').isEmpty = false := rfl
    simp only [matchSummaryHeader, hE1, hR1, tW1, dW1, hCI, tW2, dW2, hE2, hR5, hTake,
      hEmp1, hEmp2, Bool.false_eq_true, if_false, List.nil_append, List.append_nil,
      List.append_assoc]
  · intro c rest hws
    have hc : ¬(c = '=') := by
      intro hEq
      rw [hEq] at hws
      exact absurd hws (by decide)
    simp [matchSummaryHeader, List.takeWhile_cons, hc]

/-- Witness for the amended C9 with five-character runs. -/
theorem pytest_delimiter_rules_witness :
    matchSummaryHeader
        (List.replicate 5 '=' ++ summaryTitle ++ List.replicate 5 '=' ++
          '\n' :: "FAILED x".data) =
      some (List.replicate 5 '=' ++ summaryTitle ++ List.replicate 5 '=' ++ ['\n'],
        "FAILED x".data) :=
  pytest_delimiter_rules.1 5 5 "FAILED x".data (by decide) (by decide)

/-! ## Generic extractor (C10) -/

/-- The loop at lines 460-463 is the standard first-index search for
the `Job failed` line. -/
lemma findFailedIdx_eq_findIdx (ls : List (List Char)) :
    findFailedIdx ls =
      ls.findIdx?
        (fun l => strIn "ERROR: Job failed".data l || strIn "Job failed".data l) := by
  induction ls with
  | nil => rfl
  | cons x xs ih =>
    rw [findFailedIdx, List.findIdx?_cons]
    by_cases hx : (strIn "ERROR: Job failed".data x || strIn "Job failed".data x) = true
    · simp [hx]
    · simp only [Bool.not_eq_true] at hx
      simp [hx, ih, List.findIdx?_succ]

/-- C10 counterexample: the single-line trace `"Job failed"` contains a
`Job failed` line (at index 0), yet the extractor takes the keyword
branch, not the last-30-lines branch, because the source tests
`failed_index > 0`; and a keyword line is collected stripped of its
surrounding whitespace, not verbatim. -/
theorem generic_extractor_counterexample :
    (splitNl ("Job failed" : String).data).findIdx?
        (fun l => strIn "ERROR: Job failed".data l || strIn "Job failed".data l) =
      some 0 ∧
    extract_generic_failures "Job failed" ⟨none, none, none, [], "generic"⟩ =
      ⟨some "Error lines found:\nJob failed", none, none, ["Job failed"], "generic"⟩ ∧
    (extract_generic_failures "Job failed"
        ⟨none, none, none, [], "generic"⟩).short_summary ≠
      some "Job failed. Last 30 lines:\nJob failed" ∧
    (extract_generic_failures "  error: boom"
        ⟨none, none, none, [], "generic"⟩).error_lines = ["error: boom"] := by
  decide

/-- C10 amended: when the first line containing `Job failed` sits at an
index `i ≥ 1`, the summary is the up-to-30 lines preceding it plus the
line itself (under the fixed header); when no line matches, or the only
first match is the very first line (index 0), up to 20 keyword-matching
lines — each stripped of surrounding whitespace — become both the
summary and the raw error-lines list. -/
theorem generic_extractor_rules (trace : String) (f : Failures) :
    (∀ i, 1 ≤ i →
      (splitNl trace.data).findIdx?
          (fun l => strIn "ERROR: Job failed".data l || strIn "Job failed".data l) =
        some i →
      extract_generic_failures trace f =
        { f with
          short_summary := some (⟨"Job failed. Last 30 lines:\n".data ++
            joinNl (((splitNl trace.data).drop (i - 30)).take (i + 1 - (i - 30)))⟩ :
              String) }) ∧
    (((splitNl trace.data).findIdx?
          (fun l => strIn "ERROR: Job failed".data l || strIn "Job failed".data l) =
        none ∨
      (splitNl trace.data).findIdx?
          (fun l => strIn "ERROR: Job failed".data l || strIn "Job failed".data l) =
        some 0) →
      extract_generic_failures trace f =
        (let error_lines :=
          ((splitNl trace.data).filter fun l =>
              genericKeywords.any fun k => strIn k (pyLower l)).map
            fun l => (⟨pyStrip l⟩ : String)
        if error_lines.isEmpty then f
        else
          { f with
            short_summary := some ("Error lines found:\n" ++
              String.intercalate "\n" (error_lines.take 20)),
            error_lines := error_lines.take 20 })) := by
  constructor
  · intro i hi hfind
    have hf : findFailedIdx (splitNl trace.data) = some i := by
      rw [findFailedIdx_eq_findIdx]; exact hfind
    have hpos : (0 : Int) < (i : Int) := by exact_mod_cast hi
    simp only [extract_generic_failures, hf, hpos, if_true, Int.toNat_natCast]
  · intro h
    rcases h with h | h
    · have hf : findFailedIdx (splitNl trace.data) = none := by
        rw [findFailedIdx_eq_findIdx]; exact h
      simp only [extract_generic_failures, hf]
      rfl
    · have hf : findFailedIdx (splitNl trace.data) = some 0 := by
        rw [findFailedIdx_eq_findIdx]; exact h
      simp only [extract_generic_failures, hf]
      rfl

/-- Witness for the amended C10: `Job failed` on the second line. -/
theorem generic_extractor_rules_witness :
    extract_generic_failures "a\nJob failed" ⟨none, none, none, [], "generic"⟩ =
      { (⟨none, none, none, [], "generic"⟩ : Failures) with
        short_summary := some (⟨"Job failed. Last 30 lines:\n".data ++
          joinNl (((splitNl ("a\nJob failed" : String).data).drop (1 - 30)).take
            (1 + 1 - (1 - 30)))⟩ : String) } :=
  (generic_extractor_rules "a\nJob failed" ⟨none, none, none, [], "generic"⟩).1 1
    (by decide) (by decide)
